import Mathlib

/-
  Verification of the portfolio-recommendation Lex bot handler
  (src/lambda_function.py) against its natural-language specification.

  The Python module is shallowly embedded below. Slot mappings are
  association lists from slot name to nullable string value; Python's
  `int(...)`-with-NaN-fallback numeric model is embedded as `PyNum`
  (an integer or the NaN sentinel, whose comparisons are always false,
  matching IEEE NaN semantics used by Python floats). Fallible paths
  (dict key lookups, the unsupported-intent `raise`) are embedded with
  `Except PyErr`.
-/

namespace FintechMod15

/-- Decimal digit run to its value, most significant first. -/
def digitsVal (cs : List Char) : Nat :=
  cs.foldl (fun a c => 10 * a + (c.toNat - 48)) 0

/-- A nonempty all-digit character list parses to its value, otherwise fails. -/
def digitsToNat (cs : List Char) : Option Nat :=
  if cs.isEmpty then none
  else if cs.all (fun c => c.isDigit) then some (digitsVal cs)
  else none

/-- Strip leading and trailing whitespace from a character list. -/
def stripChars (cs : List Char) : List Char :=
  ((cs.dropWhile (fun c => c.isWhitespace)).reverse.dropWhile
    (fun c => c.isWhitespace)).reverse

/-- Python `int(s)` on a string: surrounding whitespace is stripped, an
optional sign precedes a nonempty digit run; anything else raises ValueError
(modelled as `none`). (Python additionally allows underscore digit
separators; immaterial to every claim, which only quantify over whether the
string parses and to which integer.) -/
def python_str_to_int (s : String) : Option Int :=
  match stripChars s.toList with
  | '-' :: rest => (digitsToNat rest).map (fun n => -(n : Int))
  | '+' :: rest => (digitsToNat rest).map (fun n => (n : Int))
  | cs => (digitsToNat cs).map (fun n => (n : Int))

/-- A Python number as produced by `parse_int`: an integer, or the
`float("nan")` sentinel returned when `int(...)` raises ValueError. -/
inductive PyNum where
  | int (n : Int)
  | nan
deriving DecidableEq

/-- Python `<` on `parse_int` results: ordinary on integers; every
comparison against NaN is false. -/
def PyNum.lt : PyNum → PyNum → Bool
  | PyNum.int a, PyNum.int b => a < b
  | _, _ => false

/-- Python `>` on `parse_int` results: ordinary on integers; every
comparison against NaN is false. -/
def PyNum.gt : PyNum → PyNum → Bool
  | PyNum.int a, PyNum.int b => b < a
  | _, _ => false

/-- `parse_int` (lambda_function.py lines 7-14): `int(n)`, with ValueError
caught and turned into `float("nan")`. -/
def parse_int (n : String) : PyNum :=
  match python_str_to_int n with
  | some i => PyNum.int i
  | none => PyNum.nan

/-- A Lex PlainText message dict `{"contentType": ..., "content": ...}`. -/
structure Message where
  contentType : String
  content : String
deriving DecidableEq

/-- Result dict of `validate_data`: the `message` key is absent
(`none`) when the message content passed to `build_validation_result`
is None. -/
structure ValidationResult where
  isValid : Bool
  violatedSlot : Option String
  message : Option Message
deriving DecidableEq

/-- `build_validation_result` (lines 17-28): omits the `message` key when
`message_content` is None, else wraps it as a PlainText message. -/
def build_validation_result (is_valid : Bool) (violated_slot : Option String)
    (message_content : Option String) : ValidationResult :=
  { isValid := is_valid
    violatedSlot := violated_slot
    message := message_content.map (fun c => { contentType := "PlainText", content := c }) }

/-- A slot mapping: insertion-ordered association list from slot name to
nullable string value, modelling the Python dict `currentIntent.slots`. -/
abbrev Slots := List (String × Option String)

/-- Dict lookup on a slot mapping: `some v` when the key is present with
value `v` (itself possibly null), `none` when the key is absent. -/
def Slots.lookup : Slots → String → Option (Option String)
  | [], _ => none
  | (k', v) :: rest, k => if k' = k then some v else Slots.lookup rest k

/-- Dict assignment `slots[k] = v`: updates the first binding of `k` in
place, appends when absent (Python dict insertion-order semantics). -/
def Slots.set : Slots → String → Option String → Slots
  | [], k, v => [(k, v)]
  | (k', v') :: rest, k, v =>
    if k' = k then (k, v) :: rest else (k', v') :: Slots.set rest k v

/-- Session attributes: a caller-owned string-to-string mapping, passed
through unchanged by every response builder. -/
abbrev SessionAttrs := List (String × String)

/-- The `currentIntent` object of an incoming request. -/
structure CurrentIntent where
  name : String
  slots : Slots
deriving DecidableEq

/-- An incoming Lex intent request (`event`). -/
structure IntentRequest where
  currentIntent : CurrentIntent
  invocationSource : String
  sessionAttributes : SessionAttrs
deriving DecidableEq

/-- The `dialogAction` object of an outgoing response, one variant per
response builder. -/
inductive DialogAction where
  | elicitSlot (intentName : String) (slots : Slots)
      (slotToElicit : Option String) (message : Option Message)
  | delegate (slots : Slots)
  | close (fulfillmentState : String) (message : Message)
deriving DecidableEq

/-- An outgoing Lex dialog response. -/
structure DialogResponse where
  sessionAttributes : SessionAttrs
  dialogAction : DialogAction
deriving DecidableEq

/-- Python runtime failures the handler can raise: dict KeyError, and the
bare `Exception` raised by `dispatch` for unsupported intents. -/
inductive PyErr where
  | keyError (key : String)
  | exception (msg : String)
deriving DecidableEq

/-- `get_slots` (lines 32-36): `intent_request["currentIntent"]["slots"]`. -/
def get_slots (intent_request : IntentRequest) : Slots :=
  intent_request.currentIntent.slots

/-- `elicit_slot` (lines 39-53). -/
def elicit_slot (session_attributes : SessionAttrs) (intent_name : String)
    (slots : Slots) (slot_to_elicit : Option String) (message : Option Message) :
    DialogResponse :=
  { sessionAttributes := session_attributes
    dialogAction := DialogAction.elicitSlot intent_name slots slot_to_elicit message }

/-- `delegate` (lines 56-64). -/
def delegate (session_attributes : SessionAttrs) (slots : Slots) : DialogResponse :=
  { sessionAttributes := session_attributes
    dialogAction := DialogAction.delegate slots }

/-- `close` (lines 67-81). -/
def close (session_attributes : SessionAttrs) (fulfillment_state : String)
    (message : Message) : DialogResponse :=
  { sessionAttributes := session_attributes
    dialogAction := DialogAction.close fulfillment_state message }

/-- The fixed violation message of the age check (line 96). -/
def age_violation_message : String :=
  "You entered an age that does not fall within the age range for this utility. Please enter an age between 1 and 65."

/-- The fixed violation message of the investment-amount check (line 110). -/
def investment_violation_message : String :=
  "You must enter an investment amount greater than or equal to $5000."

/-- The fixed violation message of the risk-level check (line 122). -/
def riskLevel_violation_message : String :=
  "You did not enter a valid risk level for this utility. Please enter either none or low or medium or high."

/-- The age check of `validate_data` (lines 86-97): skipped when null;
otherwise `parse_int(age) < parse_int(0) or parse_int(age) > parse_int(65)`
(where `parse_int(0)` and `parse_int(65)` are the integers 0 and 65)
early-returns the age violation. -/
def check_age (age : Option String) : Option ValidationResult :=
  match age with
  | none => none
  | some a =>
    let ageN := parse_int a
    if PyNum.lt ageN (PyNum.int 0) || PyNum.gt ageN (PyNum.int 65) then
      some (build_validation_result false (some "age") (some age_violation_message))
    else none

/-- The investment-amount check of `validate_data` (lines 100-111): skipped
when null; otherwise `parse_int(investmentAmount) < int(5000)` early-returns
the investment-amount violation. -/
def check_investmentAmount (investmentAmount : Option String) : Option ValidationResult :=
  match investmentAmount with
  | none => none
  | some m =>
    let amountN := parse_int m
    if PyNum.lt amountN (PyNum.int 5000) then
      some (build_validation_result false (some "investmentAmount")
        (some investment_violation_message))
    else none

/-- The risk-level check of `validate_data` (lines 115-123): skipped when
null; otherwise any value other than the exact strings "none", "low",
"medium", "high" early-returns the risk-level violation. -/
def check_riskLevel (riskLevel : Option String) : Option ValidationResult :=
  match riskLevel with
  | none => none
  | some r =>
    if r ≠ "none" ∧ r ≠ "low" ∧ r ≠ "medium" ∧ r ≠ "high" then
      some (build_validation_result false (some "riskLevel")
        (some riskLevel_violation_message))
    else none

/-- `validate_data` (lines 83-126): the three checks run in order age,
investmentAmount, riskLevel; the first early return wins; otherwise the
success result. The `intent_request` parameter is accepted and unused,
exactly as in the source. -/
def validate_data (age investmentAmount riskLevel : Option String)
    (intent_request : IntentRequest) : ValidationResult :=
  match check_age age with
  | some result => result
  | none =>
    match check_investmentAmount investmentAmount with
    | some result => result
    | none =>
      match check_riskLevel riskLevel with
      | some result => result
      | none => build_validation_result true none none

/-- `get_advice` (lines 202-215): four-branch decision on the risk level
(`None == 'none'` is false in Python, so a null risk level also takes the
default branch). -/
def get_advice (risklevel : Option String) : String :=
  if risklevel = some "none" then "100% bonds (AGG), 0% equities (SPY)"
  else if risklevel = some "low" then "60% bonds (ACG), 40% equities (SPY)"
  else if risklevel = some "medium" then "40% bonds (ACG), 60% equities (SPY)"
  else "20% bonds (ACG), 80% equities (SPY)"

/-- Dict lookup `slots[key]` that raises KeyError when the key is absent. -/
def Slots.getKey (slots : Slots) (key : String) : Except PyErr (Option String) :=
  match Slots.lookup slots key with
  | some v => Except.ok v
  | none => Except.error (PyErr.keyError key)

/-- `recommend_portfolio` (lines 129-186): reads the four slot keys
unconditionally (KeyError when absent), then branches on the invocation
source; the dialog-hook phase validates and returns ElicitSlot (nulling the
violated slot) or Delegate, every other source computes advice from the
riskLevel slot as read and returns Close/Fulfilled.

The two fallback branches of the inner match are unreachable:
`validate_data` only ever produces `isValid = false` together with
`violatedSlot = some _` and `message = some _`
(lemma `validate_data_invalid_shape` below). In Python,
`validation_result["message"]` on a result without the key would raise
KeyError, embedded accordingly; a None `violatedSlot` would be used as a
dict key and elicited, embedded keeping the slots unchanged since the
string-keyed mapping has no None key to assign. -/
def recommend_portfolio (intent_request : IntentRequest) :
    Except PyErr DialogResponse := do
  let _firstname ← Slots.getKey (get_slots intent_request) "firstname"
  let age ← Slots.getKey (get_slots intent_request) "age"
  let investmentAmount ← Slots.getKey (get_slots intent_request) "investmentAmount"
  let riskLevel ← Slots.getKey (get_slots intent_request) "riskLevel"
  let source := intent_request.invocationSource
  if source = "DialogCodeHook" then
    let slots := get_slots intent_request
    let validation_result := validate_data age investmentAmount riskLevel intent_request
    if validation_result.isValid = false then
      match validation_result.violatedSlot, validation_result.message with
      | some vs, some m =>
        return elicit_slot intent_request.sessionAttributes
          intent_request.currentIntent.name
          (Slots.set slots vs none) (some vs) (some m)
      | some _, none => Except.error (PyErr.keyError "message")
      | none, mOpt =>
        return elicit_slot intent_request.sessionAttributes
          intent_request.currentIntent.name slots none mOpt
    else
      return delegate intent_request.sessionAttributes (get_slots intent_request)
  else
    let invest_advice := get_advice riskLevel
    return close intent_request.sessionAttributes "Fulfilled"
      { contentType := "PlainText"
        content := "Based on your risk level, it is recommended that your portfolio should be " ++ invest_advice ++ "\n            " }

/-- `dispatch` (lines 189-200): routes by `currentIntent.name`; any name
other than "recommendPortfolio" raises. -/
def dispatch (intent_request : IntentRequest) : Except PyErr DialogResponse :=
  let intent_name := intent_request.currentIntent.name
  if intent_name = "recommendPortfolio" then
    recommend_portfolio intent_request
  else
    Except.error (PyErr.exception ("Intent with name " ++ intent_name ++ " not supported"))

/-- `lambda_handler` (lines 220-226): hands the event to `dispatch`
untouched; errors propagate. -/
def lambda_handler (event : IntentRequest) (_context : Unit) :
    Except PyErr DialogResponse :=
  dispatch event

/-! ### Sample requests used by witnesses and counterexamples -/

/-- A well-formed dialog-hook request with all four slots filled validly. -/
def sample_request : IntentRequest :=
  { currentIntent :=
      { name := "recommendPortfolio"
        slots := [("firstname", some "Ada"), ("age", some "30"),
                  ("investmentAmount", some "10000"), ("riskLevel", some "medium")] }
    invocationSource := "DialogCodeHook"
    sessionAttributes := [("sessionKey", "sessionVal")] }

/-- A dialog-hook request whose age slot is out of range (70). -/
def sample_bad_age_request : IntentRequest :=
  { currentIntent :=
      { name := "recommendPortfolio"
        slots := [("firstname", some "Ada"), ("age", some "70"),
                  ("investmentAmount", some "10000"), ("riskLevel", some "medium")] }
    invocationSource := "DialogCodeHook"
    sessionAttributes := [("sessionKey", "sessionVal")] }

/-- A request for an intent name no handler is registered for. -/
def unknown_intent_request : IntentRequest :=
  { currentIntent := { name := "unknownIntent", slots := [] }
    invocationSource := "DialogCodeHook"
    sessionAttributes := [] }

/-- A fulfillment-phase request (invocation source is not DialogCodeHook). -/
def sample_fulfillment_request : IntentRequest :=
  { currentIntent :=
      { name := "recommendPortfolio"
        slots := [("firstname", some "Ada"), ("age", some "30"),
                  ("investmentAmount", some "10000"), ("riskLevel", some "low")] }
    invocationSource := "FulfillmentCodeHook"
    sessionAttributes := [("sessionKey", "sessionVal")] }

/-- A request whose slot mapping lacks the "firstname" key. -/
def missing_firstname_request : IntentRequest :=
  { currentIntent :=
      { name := "recommendPortfolio"
        slots := [("age", some "30"), ("investmentAmount", some "10000"),
                  ("riskLevel", some "medium")] }
    invocationSource := "FulfillmentCodeHook"
    sessionAttributes := [] }

/-! ### Helper lemmas about the numeric model and the three checks -/

theorem PyNum.nan_lt (y : PyNum) : PyNum.lt PyNum.nan y = false := by
  cases y <;> rfl

theorem PyNum.nan_gt (y : PyNum) : PyNum.gt PyNum.nan y = false := by
  cases y <;> rfl

theorem PyNum.int_lt (a b : Int) :
    PyNum.lt (PyNum.int a) (PyNum.int b) = decide (a < b) := rfl

theorem PyNum.int_gt (a b : Int) :
    PyNum.gt (PyNum.int a) (PyNum.int b) = decide (b < a) := rfl

theorem check_age_of_parse_none (a : String) (h : python_str_to_int a = none) :
    check_age (some a) = none := by
  simp [check_age, parse_int, h, PyNum.nan_lt, PyNum.nan_gt]

theorem check_age_of_in_range (a : String) (n : Int)
    (h : python_str_to_int a = some n) (h0 : 0 ≤ n) (h65 : n ≤ 65) :
    check_age (some a) = none := by
  simp only [check_age, parse_int, h, PyNum.int_lt, PyNum.int_gt]
  rw [if_neg]
  simp only [Bool.or_eq_true, decide_eq_true_eq, not_or]
  omega

theorem check_age_of_out_of_range (a : String) (n : Int)
    (h : python_str_to_int a = some n) (hout : n < 0 ∨ 65 < n) :
    check_age (some a) =
      some (build_validation_result false (some "age") (some age_violation_message)) := by
  simp only [check_age, parse_int, h, PyNum.int_lt, PyNum.int_gt]
  rw [if_pos]
  simp only [Bool.or_eq_true, decide_eq_true_eq]
  omega

theorem check_investmentAmount_of_parse_none (m : String)
    (h : python_str_to_int m = none) :
    check_investmentAmount (some m) = none := by
  simp [check_investmentAmount, parse_int, h, PyNum.nan_lt]

theorem check_investmentAmount_of_ge (m : String) (n : Int)
    (h : python_str_to_int m = some n) (h5000 : 5000 ≤ n) :
    check_investmentAmount (some m) = none := by
  simp only [check_investmentAmount, parse_int, h, PyNum.int_lt]
  rw [if_neg]
  simp only [decide_eq_true_eq]
  omega

theorem check_investmentAmount_of_lt (m : String) (n : Int)
    (h : python_str_to_int m = some n) (hlt : n < 5000) :
    check_investmentAmount (some m) =
      some (build_validation_result false (some "investmentAmount")
        (some investment_violation_message)) := by
  simp only [check_investmentAmount, parse_int, h, PyNum.int_lt]
  rw [if_pos]
  simp only [decide_eq_true_eq]
  omega

theorem check_riskLevel_of_mem (r : String)
    (h : r = "none" ∨ r = "low" ∨ r = "medium" ∨ r = "high") :
    check_riskLevel (some r) = none := by
  rcases h with h | h | h | h <;> subst h <;> rfl

theorem check_riskLevel_of_not_mem (r : String)
    (h1 : r ≠ "none") (h2 : r ≠ "low") (h3 : r ≠ "medium") (h4 : r ≠ "high") :
    check_riskLevel (some r) =
      some (build_validation_result false (some "riskLevel")
        (some riskLevel_violation_message)) := by
  simp [check_riskLevel, h1, h2, h3, h4]

theorem check_age_result (age : Option String) (res : ValidationResult)
    (h : check_age age = some res) :
    res = build_validation_result false (some "age") (some age_violation_message) := by
  cases age with
  | none => simp [check_age] at h
  | some a =>
    simp only [check_age] at h
    split at h
    · exact (Option.some.injEq _ _ ▸ h).symm
    · simp at h

theorem check_investmentAmount_result (m : Option String) (res : ValidationResult)
    (h : check_investmentAmount m = some res) :
    res = build_validation_result false (some "investmentAmount")
      (some investment_violation_message) := by
  cases m with
  | none => simp [check_investmentAmount] at h
  | some a =>
    simp only [check_investmentAmount] at h
    split at h
    · exact (Option.some.injEq _ _ ▸ h).symm
    · simp at h

theorem check_riskLevel_result (r : Option String) (res : ValidationResult)
    (h : check_riskLevel r = some res) :
    res = build_validation_result false (some "riskLevel")
      (some riskLevel_violation_message) := by
  cases r with
  | none => simp [check_riskLevel] at h
  | some a =>
    simp only [check_riskLevel] at h
    split at h
    · exact (Option.some.injEq _ _ ▸ h).symm
    · simp at h

/-- `validate_data` only ever produces one of four results: the three fixed
violations or the success result. -/
theorem validate_data_cases (a i r : Option String) (req : IntentRequest) :
    validate_data a i r req =
      build_validation_result false (some "age") (some age_violation_message) ∨
    validate_data a i r req =
      build_validation_result false (some "investmentAmount")
        (some investment_violation_message) ∨
    validate_data a i r req =
      build_validation_result false (some "riskLevel")
        (some riskLevel_violation_message) ∨
    validate_data a i r req = build_validation_result true none none := by
  unfold validate_data
  cases h1 : check_age a with
  | some res => exact Or.inl (by rw [check_age_result a res h1])
  | none =>
    cases h2 : check_investmentAmount i with
    | some res => exact Or.inr (Or.inl (by rw [check_investmentAmount_result i res h2]))
    | none =>
      cases h3 : check_riskLevel r with
      | some res => exact Or.inr (Or.inr (Or.inl (by rw [check_riskLevel_result r res h3])))
      | none => exact Or.inr (Or.inr (Or.inr rfl))

/-- An invalid `validate_data` result always carries a violated slot and a
message (so the fallback branches of `recommend_portfolio` are dead code). -/
theorem validate_data_invalid_shape (a i r : Option String) (req : IntentRequest)
    (h : (validate_data a i r req).isValid = false) :
    (∃ vs, (validate_data a i r req).violatedSlot = some vs) ∧
    (∃ m, (validate_data a i r req).message = some m) := by
  rcases validate_data_cases a i r req with hc | hc | hc | hc <;> rw [hc] <;>
    first
      | exact ⟨⟨_, rfl⟩, ⟨_, rfl⟩⟩
      | (rw [hc] at h; simp [build_validation_result] at h)

/-! ### Reduction lemmas for the `Except` embedding of fallible code -/

theorem ok_bind {ε α β : Type} (a : α) (f : α → Except ε β) :
    (Except.ok a >>= f : Except ε β) = f a := rfl

theorem error_bind {ε α β : Type} (e : ε) (f : α → Except ε β) :
    ((Except.error e : Except ε α) >>= f) = Except.error e := rfl

theorem pure_eq_ok {ε α : Type} (a : α) : (pure a : Except ε α) = Except.ok a := rfl

/-! ### Lemmas about dict assignment on slot mappings -/

theorem Slots.lookup_set_self (s : Slots) (k : String) (v : Option String) :
    Slots.lookup (Slots.set s k v) k = some v := by
  induction s with
  | nil => simp [Slots.set, Slots.lookup]
  | cons hd tl ih =>
    obtain ⟨k', v'⟩ := hd
    by_cases h : k' = k <;> simp [Slots.set, Slots.lookup, h, ih]

theorem Slots.lookup_set_ne (s : Slots) (k k' : String) (v : Option String)
    (h : k' ≠ k) :
    Slots.lookup (Slots.set s k v) k' = Slots.lookup s k' := by
  induction s with
  | nil => simp [Slots.set, Slots.lookup, Ne.symm h]
  | cons hd tl ih =>
    obtain ⟨k'', v''⟩ := hd
    by_cases hk : k'' = k
    · subst hk
      simp [Slots.set, Slots.lookup, Ne.symm h]
    · by_cases hk' : k'' = k' <;> simp [Slots.set, Slots.lookup, h, hk, hk', ih]

/-! ### The claims -/

/-- C1, as stated, is false: an unparseable age string becomes NaN, every
comparison against NaN is false, so the out-of-range condition is false and
`validate_data` returns the success result — it does NOT return the "age"
violation. -/
theorem c1_counterexample :
    python_str_to_int "not-a-number" = none ∧
    validate_data (some "not-a-number") none none sample_request =
      build_validation_result true none none ∧
    (validate_data (some "not-a-number") none none sample_request).violatedSlot ≠
      some "age" :=
  ⟨by decide, by decide, by decide⟩

/-- C1 (amended): for every present age or investmentAmount slot whose
string value does not parse as an integer, `parse_int` turns it into the
NaN sentinel, which fails every numeric comparison; consequently the range
condition is false and the slot is silently accepted exactly as if it were
absent — no violation (and no distinct not-a-number error) is produced for
it. -/
theorem c1_unparseable_becomes_nan_and_is_skipped (s : String)
    (hs : python_str_to_int s = none) (age i r : Option String)
    (req : IntentRequest) :
    parse_int s = PyNum.nan ∧
    (∀ y, PyNum.lt (parse_int s) y = false ∧ PyNum.gt (parse_int s) y = false) ∧
    validate_data (some s) i r req = validate_data none i r req ∧
    validate_data age (some s) r req = validate_data age none r req := by
  have hnan : parse_int s = PyNum.nan := by simp [parse_int, hs]
  refine ⟨hnan, fun y => by rw [hnan]; exact ⟨PyNum.nan_lt y, PyNum.nan_gt y⟩, ?_, ?_⟩
  · unfold validate_data
    rw [check_age_of_parse_none s hs]
    exact rfl
  · unfold validate_data
    cases check_age age with
    | some res => rfl
    | none =>
      rw [check_investmentAmount_of_parse_none s hs]
      exact rfl

/-- C1 witness: the unparseable age "twenty" is silently accepted. -/
theorem c1_witness :
    python_str_to_int "twenty" = none ∧
    validate_data (some "twenty") none none sample_request =
      validate_data none none none sample_request :=
  ⟨by decide,
   (c1_unparseable_becomes_nan_and_is_skipped "twenty" (by decide) none none none
     sample_request).2.2.1⟩

/-- C2: `get_advice` is exactly the stated four-branch map; every input
other than "none"/"low"/"medium" (including "high" and any unrecognized
string) yields the default 20/80 advice, so `get_advice` on "high" equals
`get_advice` on any other unrecognized string. -/
theorem c2_get_advice_map :
    get_advice (some "none") = "100% bonds (AGG), 0% equities (SPY)" ∧
    get_advice (some "low") = "60% bonds (ACG), 40% equities (SPY)" ∧
    get_advice (some "medium") = "40% bonds (ACG), 60% equities (SPY)" ∧
    (∀ s : String, s ≠ "none" → s ≠ "low" → s ≠ "medium" →
      get_advice (some s) = "20% bonds (ACG), 80% equities (SPY)") ∧
    get_advice (some "high") = get_advice (some "anything-else") := by
  refine ⟨rfl, rfl, rfl, ?_, rfl⟩
  intro s h1 h2 h3
  simp [get_advice, h1, h2, h3]

/-- C2 witness: the fallback branch at the concrete input "high". -/
theorem c2_witness :
    get_advice (some "high") = "20% bonds (ACG), 80% equities (SPY)" :=
  c2_get_advice_map.2.2.2.1 "high" (by decide) (by decide) (by decide)

/-- C3: with the four slot keys present, a DialogCodeHook request whose
slots validate successfully yields Delegate carrying all current slots and
the unchanged session attributes; a request with any other invocation
source yields Close/Fulfilled whose PlainText content embeds
`get_advice` of the riskLevel slot value exactly as read, without
re-validation (the riskLevel value `r` is arbitrary here). -/
theorem c3_two_phase_dispatch (req : IntentRequest) (fn a i r : Option String)
    (hfn : Slots.lookup (get_slots req) "firstname" = some fn)
    (ha : Slots.lookup (get_slots req) "age" = some a)
    (hi : Slots.lookup (get_slots req) "investmentAmount" = some i)
    (hr : Slots.lookup (get_slots req) "riskLevel" = some r) :
    (req.invocationSource = "DialogCodeHook" →
      (validate_data a i r req).isValid = true →
      recommend_portfolio req =
        Except.ok (delegate req.sessionAttributes (get_slots req))) ∧
    (req.invocationSource ≠ "DialogCodeHook" →
      recommend_portfolio req = Except.ok (close req.sessionAttributes "Fulfilled"
        { contentType := "PlainText"
          content := "Based on your risk level, it is recommended that your portfolio should be " ++ get_advice r ++ "\n            " })) := by
  constructor
  · intro hsrc hvalid
    simp [recommend_portfolio, Slots.getKey, hfn, ha, hi, hr, hsrc, hvalid,
      ok_bind, pure_eq_ok]
  · intro hsrc
    simp [recommend_portfolio, Slots.getKey, hfn, ha, hi, hr, hsrc,
      ok_bind, pure_eq_ok]

/-- C3 witness: the valid dialog-hook request delegates; the fulfillment
request closes with the advice for "low" embedded. -/
theorem c3_witness :
    recommend_portfolio sample_request =
      Except.ok (delegate sample_request.sessionAttributes (get_slots sample_request)) ∧
    recommend_portfolio sample_fulfillment_request =
      Except.ok (close sample_fulfillment_request.sessionAttributes "Fulfilled"
        { contentType := "PlainText"
          content := "Based on your risk level, it is recommended that your portfolio should be " ++ get_advice (some "low") ++ "\n            " }) :=
  ⟨(c3_two_phase_dispatch sample_request (some "Ada") (some "30") (some "10000")
      (some "medium") (by decide) (by decide) (by decide) (by decide)).1
      (by decide) (by decide),
   (c3_two_phase_dispatch sample_fulfillment_request (some "Ada") (some "30")
      (some "10000") (some "low") (by decide) (by decide) (by decide) (by decide)).2
      (by decide)⟩

/-- C4: with the four slot keys present, a DialogCodeHook request whose
slots fail validation yields ElicitSlot in which the violated slot is
nulled, slotToElicit names the violated slot, the message is the
validator's violation message, the session attributes are unchanged, the
violated slot's value in the response mapping is null, and every other
slot value is unchanged from the request. -/
theorem c4_elicit_on_invalid (req : IntentRequest) (fn a i r : Option String)
    (vs : String) (m : Message)
    (hfn : Slots.lookup (get_slots req) "firstname" = some fn)
    (ha : Slots.lookup (get_slots req) "age" = some a)
    (hi : Slots.lookup (get_slots req) "investmentAmount" = some i)
    (hr : Slots.lookup (get_slots req) "riskLevel" = some r)
    (hsrc : req.invocationSource = "DialogCodeHook")
    (hvalid : (validate_data a i r req).isValid = false)
    (hvs : (validate_data a i r req).violatedSlot = some vs)
    (hm : (validate_data a i r req).message = some m) :
    recommend_portfolio req = Except.ok (elicit_slot req.sessionAttributes
      req.currentIntent.name (Slots.set (get_slots req) vs none) (some vs) (some m)) ∧
    Slots.lookup (Slots.set (get_slots req) vs none) vs = some none ∧
    (∀ k, k ≠ vs →
      Slots.lookup (Slots.set (get_slots req) vs none) k =
        Slots.lookup (get_slots req) k) := by
  refine ⟨?_, Slots.lookup_set_self _ vs none,
    fun k hk => Slots.lookup_set_ne _ vs k none hk⟩
  simp [recommend_portfolio, Slots.getKey, hfn, ha, hi, hr, hsrc, hvalid, hvs, hm,
    ok_bind, pure_eq_ok]

/-- C4 witness: end-to-end scenario with age=70 — ElicitSlot for "age",
age nulled, another slot (riskLevel) untouched. -/
theorem c4_witness :
    recommend_portfolio sample_bad_age_request =
      Except.ok (elicit_slot sample_bad_age_request.sessionAttributes
        sample_bad_age_request.currentIntent.name
        (Slots.set (get_slots sample_bad_age_request) "age" none) (some "age")
        (some { contentType := "PlainText", content := age_violation_message })) ∧
    Slots.lookup (Slots.set (get_slots sample_bad_age_request) "age" none) "age" =
      some none ∧
    Slots.lookup (Slots.set (get_slots sample_bad_age_request) "age" none) "riskLevel" =
      Slots.lookup (get_slots sample_bad_age_request) "riskLevel" :=
  ⟨(c4_elicit_on_invalid sample_bad_age_request (some "Ada") (some "70")
      (some "10000") (some "medium") "age"
      { contentType := "PlainText", content := age_violation_message }
      (by decide) (by decide) (by decide) (by decide) (by decide) (by decide)
      (by decide) (by decide)).1,
   (c4_elicit_on_invalid sample_bad_age_request (some "Ada") (some "70")
      (some "10000") (some "medium") "age"
      { contentType := "PlainText", content := age_violation_message }
      (by decide) (by decide) (by decide) (by decide) (by decide) (by decide)
      (by decide) (by decide)).2.1,
   (c4_elicit_on_invalid sample_bad_age_request (some "Ada") (some "70")
      (some "10000") (some "medium") "age"
      { contentType := "PlainText", content := age_violation_message }
      (by decide) (by decide) (by decide) (by decide) (by decide) (by decide)
      (by decide) (by decide)).2.2 "riskLevel" (by decide)⟩

/-- C5: a present age parsing to integer n passes the age check exactly
when 0 ≤ n ≤ 65 (both ends inclusive; the slot then behaves as if absent),
and for n < 0 or n > 65 the validator returns the "age" violation with its
fixed message (whose text says "between 1 and 65" despite the 0-65 check —
see `age_violation_message`), regardless of the other slots. -/
theorem c5_age_range (s : String) (n : Int) (hs : python_str_to_int s = some n)
    (i r : Option String) (req : IntentRequest) :
    (0 ≤ n → n ≤ 65 → validate_data (some s) i r req = validate_data none i r req) ∧
    (n < 0 ∨ 65 < n →
      validate_data (some s) i r req =
        build_validation_result false (some "age") (some age_violation_message)) := by
  constructor
  · intro h0 h65
    unfold validate_data
    rw [check_age_of_in_range s n hs h0 h65]
    exact rfl
  · intro hout
    unfold validate_data
    rw [check_age_of_out_of_range s n hs hout]

/-- C5 witness: age 30 accepted (also at the boundary 65), age 70
rejected with the fixed message. -/
theorem c5_witness :
    validate_data (some "30") none none sample_request =
      validate_data none none none sample_request ∧
    validate_data (some "65") none none sample_request =
      validate_data none none none sample_request ∧
    validate_data (some "70") none none sample_request =
      build_validation_result false (some "age") (some age_violation_message) :=
  ⟨(c5_age_range "30" 30 (by decide) none none sample_request).1 (by decide) (by decide),
   (c5_age_range "65" 65 (by decide) none none sample_request).1 (by decide) (by decide),
   (c5_age_range "70" 70 (by decide) none none sample_request).2 (Or.inr (by decide))⟩

/-- C6: a present investmentAmount parsing to integer n passes its check
exactly when n ≥ 5000 (the slot then behaves as if absent), and for
n < 5000 (with the age check not firing first) the validator returns the
"investmentAmount" violation with its fixed message. -/
theorem c6_investment_amount (s : String) (n : Int)
    (hs : python_str_to_int s = some n) (a r : Option String)
    (req : IntentRequest) :
    (5000 ≤ n → validate_data a (some s) r req = validate_data a none r req) ∧
    (n < 5000 →
      validate_data none (some s) r req =
        build_validation_result false (some "investmentAmount")
          (some investment_violation_message)) := by
  constructor
  · intro h5000
    unfold validate_data
    cases check_age a with
    | some res => rfl
    | none =>
      rw [check_investmentAmount_of_ge s n hs h5000]
      exact rfl
  · intro hlt
    unfold validate_data
    simp [check_age, check_investmentAmount_of_lt s n hs hlt]

/-- C6 witness: 10000 accepted (also the boundary 5000), 1 rejected. -/
theorem c6_witness :
    validate_data none (some "10000") none sample_request =
      validate_data none none none sample_request ∧
    validate_data none (some "5000") none sample_request =
      validate_data none none none sample_request ∧
    validate_data none (some "1") none sample_request =
      build_validation_result false (some "investmentAmount")
        (some investment_violation_message) :=
  ⟨(c6_investment_amount "10000" 10000 (by decide) none none sample_request).1 (by decide),
   (c6_investment_amount "5000" 5000 (by decide) none none sample_request).1 (by decide),
   (c6_investment_amount "1" 1 (by decide) none none sample_request).2 (by decide)⟩

/-- C7: a present riskLevel passes its check exactly when it is one of the
literal strings "none", "low", "medium", "high" (case-sensitive exact
match; the slot then behaves as if absent), and otherwise (with the
earlier checks not firing) the validator returns the "riskLevel" violation
with its fixed message. -/
theorem c7_risk_level (s : String) (a i : Option String) (req : IntentRequest) :
    ((s = "none" ∨ s = "low" ∨ s = "medium" ∨ s = "high") →
      validate_data a i (some s) req = validate_data a i none req) ∧
    (s ≠ "none" → s ≠ "low" → s ≠ "medium" → s ≠ "high" →
      validate_data none none (some s) req =
        build_validation_result false (some "riskLevel")
          (some riskLevel_violation_message)) := by
  constructor
  · intro hmem
    unfold validate_data
    cases check_age a with
    | some res => rfl
    | none =>
      cases check_investmentAmount i with
      | some res => rfl
      | none =>
        rw [check_riskLevel_of_mem s hmem]
        exact rfl
  · intro h1 h2 h3 h4
    unfold validate_data
    simp [check_age, check_investmentAmount,
      check_riskLevel_of_not_mem s h1 h2 h3 h4]

/-- C7 witness: "medium" accepted ("Medium" would not match), "zzz"
rejected with the fixed message. -/
theorem c7_witness :
    validate_data none none (some "medium") sample_request =
      validate_data none none none sample_request ∧
    validate_data none none (some "Medium") sample_request =
      build_validation_result false (some "riskLevel")
        (some riskLevel_violation_message) ∧
    validate_data none none (some "zzz") sample_request =
      build_validation_result false (some "riskLevel")
        (some riskLevel_violation_message) :=
  ⟨(c7_risk_level "medium" none none sample_request).1 (Or.inr (Or.inr (Or.inl rfl))),
   (c7_risk_level "Medium" none none sample_request).2 (by decide) (by decide)
     (by decide) (by decide),
   (c7_risk_level "zzz" none none sample_request).2 (by decide) (by decide)
     (by decide) (by decide)⟩

/-- C8: the checks run in the fixed order age, investmentAmount,
riskLevel; null slots are skipped (all-null input is valid); the first
violation is returned without aggregating later ones (an out-of-range age
wins regardless of the other two slots, a too-small amount wins regardless
of riskLevel); and every valid result is exactly the success result with
null violatedSlot and absent message. -/
theorem c8_order_and_success (a i r : Option String) (req : IntentRequest)
    (s t : String) (n m : Int) :
    validate_data none none none req = build_validation_result true none none ∧
    (python_str_to_int s = some n → (n < 0 ∨ 65 < n) →
      validate_data (some s) i r req =
        build_validation_result false (some "age") (some age_violation_message)) ∧
    (python_str_to_int t = some m → m < 5000 →
      validate_data none (some t) r req =
        build_validation_result false (some "investmentAmount")
          (some investment_violation_message)) ∧
    ((validate_data a i r req).isValid = true →
      validate_data a i r req = build_validation_result true none none) := by
  refine ⟨rfl, ?_, ?_, ?_⟩
  · intro hs hout
    unfold validate_data
    rw [check_age_of_out_of_range s n hs hout]
  · intro ht hlt
    unfold validate_data
    simp [check_age, check_investmentAmount_of_lt t m ht hlt]
  · intro hvalid
    rcases validate_data_cases a i r req with hc | hc | hc | hc <;>
      (try exact hc) <;> rw [hc] at hvalid <;>
      simp [build_validation_result] at hvalid

/-- C8 witness: all-null input is valid; an invalid age short-circuits
past an invalid amount and risk level; an invalid amount short-circuits
past an invalid risk level. -/
theorem c8_witness :
    validate_data none none none sample_request =
      build_validation_result true none none ∧
    validate_data (some "70") (some "1") (some "zzz") sample_request =
      build_validation_result false (some "age") (some age_violation_message) ∧
    validate_data none (some "1") (some "zzz") sample_request =
      build_validation_result false (some "investmentAmount")
        (some investment_violation_message) :=
  ⟨(c8_order_and_success none none none sample_request "70" "1" 70 1).1,
   (c8_order_and_success none (some "1") (some "zzz") sample_request "70" "1" 70 1).2.1
     (by decide) (Or.inr (by decide)),
   (c8_order_and_success none (some "1") (some "zzz") sample_request "70" "1" 70 1).2.2.1
     (by decide) (by decide)⟩

/-- C9: `dispatch` raises for every intent name other than
"recommendPortfolio" (producing no DialogResponse), returns the portfolio
handler's result for "recommendPortfolio", and `lambda_handler` passes the
event to `dispatch` unchanged so the error propagates uncaught. -/
theorem c9_dispatch_contract (req event : IntentRequest) :
    (req.currentIntent.name ≠ "recommendPortfolio" →
      dispatch req = Except.error (PyErr.exception
        ("Intent with name " ++ req.currentIntent.name ++ " not supported")) ∧
      ∀ resp : DialogResponse, dispatch req ≠ Except.ok resp) ∧
    (req.currentIntent.name = "recommendPortfolio" →
      dispatch req = recommend_portfolio req) ∧
    lambda_handler event () = dispatch event := by
  refine ⟨fun hne => ⟨by simp [dispatch, hne], fun resp => by simp [dispatch, hne]⟩,
    fun heq => by simp [dispatch, heq], rfl⟩

/-- C9 witness: the "unknownIntent" request makes `dispatch` raise, and
the entry point forwards it untouched. -/
theorem c9_witness :
    dispatch unknown_intent_request =
      Except.error (PyErr.exception "Intent with name unknownIntent not supported") ∧
    lambda_handler unknown_intent_request () = dispatch unknown_intent_request :=
  ⟨((c9_dispatch_contract unknown_intent_request unknown_intent_request).1
      (by decide)).1,
   (c9_dispatch_contract unknown_intent_request unknown_intent_request).2.2⟩

/-- C10: the portfolio handler reads the four slot keys "firstname",
"age", "investmentAmount", "riskLevel" unconditionally before any
branching (the statements below hold for every invocation source), so a
request lacking any of them — including "firstname", which no check or
response ever uses — fails with that key's KeyError instead of returning a
DialogResponse. -/
theorem c10_missing_slot_keys (req : IntentRequest) :
    (Slots.lookup (get_slots req) "firstname" = none →
      recommend_portfolio req = Except.error (PyErr.keyError "firstname")) ∧
    (∀ fn, Slots.lookup (get_slots req) "firstname" = some fn →
      Slots.lookup (get_slots req) "age" = none →
      recommend_portfolio req = Except.error (PyErr.keyError "age")) ∧
    (∀ fn a, Slots.lookup (get_slots req) "firstname" = some fn →
      Slots.lookup (get_slots req) "age" = some a →
      Slots.lookup (get_slots req) "investmentAmount" = none →
      recommend_portfolio req = Except.error (PyErr.keyError "investmentAmount")) ∧
    (∀ fn a i, Slots.lookup (get_slots req) "firstname" = some fn →
      Slots.lookup (get_slots req) "age" = some a →
      Slots.lookup (get_slots req) "investmentAmount" = some i →
      Slots.lookup (get_slots req) "riskLevel" = none →
      recommend_portfolio req = Except.error (PyErr.keyError "riskLevel")) := by
  refine ⟨fun hfn => ?_, fun fn hfn ha => ?_, fun fn a hfn ha hi => ?_,
    fun fn a i hfn ha hi hr => ?_⟩
  · simp [recommend_portfolio, Slots.getKey, hfn, error_bind]
  · simp [recommend_portfolio, Slots.getKey, hfn, ha, ok_bind, error_bind]
  · simp [recommend_portfolio, Slots.getKey, hfn, ha, hi, ok_bind, error_bind]
  · simp [recommend_portfolio, Slots.getKey, hfn, ha, hi, hr, ok_bind, error_bind]

/-- C10 witness: a fulfillment-phase request missing only "firstname" —
a key no response uses — still fails with KeyError("firstname"). -/
theorem c10_witness :
    recommend_portfolio missing_firstname_request =
      Except.error (PyErr.keyError "firstname") :=
  (c10_missing_slot_keys missing_firstname_request).1 (by decide)

end FintechMod15
